import Mathlib

/-!
Shallow embedding of the Guitar-Hero rhythm-game state-transition engine
(src/types.ts, src/state.ts, src/util.ts) in Lean 4.

Modelling conventions:
* JavaScript numbers are embedded as exact rationals (`ℚ`).  The source
  stores positions (`cy`, `y1`, `y2`, ...) as decimal strings and converts
  with `Number(...)` / template literals before and after every arithmetic
  step; since `Number` / `toString` round-trip is the identity on the values
  involved, positions are modelled directly as `ℚ`.
* Entity ids are built in the source as the strings `"circle" + objCount`
  and `"tail" + objCount`.  Because the two tags are fixed string constants
  and the counter is a number, the id string is an injective image of the
  pair (tag, counter); ids are therefore modelled as that pair (`GameId`),
  which preserves id equality exactly.
* Column positions (`"20%"` ...) and style/class strings are kept as
  strings.  The field names `end` and `class` are Lean keywords and are
  rendered `end_` and `class_`.
* `Number(x.toFixed(1))` is modelled as rounding to one decimal place
  (`toFixed1`), and the JavaScript remainder operator `%` as `jsMod`
  (truncated division remainder, sign of the dividend).
-/

namespace GH

/-- Tag part of an entity id: the source prefixes `"circle"` or `"tail"`. -/
inductive IdTag where
  | circle
  | tail
deriving DecidableEq, Repr

/-- An entity id, the pair underlying the source string `"circle" + n` /
`"tail" + n`. -/
structure GameId where
  tag : IdTag
  counter : ℕ
deriving DecidableEq, Repr

/-- The data of the note played by a circle (source `NoteData`); `end` is a
Lean keyword, rendered `end_`. -/
structure NoteData where
  userPlayed : Bool
  instrumentName : String
  velocity : ℚ
  pitch : ℚ
  start : ℚ
  end_ : ℚ
deriving DecidableEq, Repr

/-- A playable circle (source `Circle`); `class` is a Lean keyword, rendered
`class_`. -/
structure Circle where
  id : GameId
  r : ℚ
  cx : String
  cy : ℚ
  style : String
  class_ : String
  note : NoteData
  hasTail : Bool
deriving DecidableEq, Repr

/-- A background circle (source `BgCircle`). -/
structure BgCircle where
  cy : ℚ
  note : NoteData
deriving DecidableEq, Repr

/-- The tail of a circle with a long note (source `Tail`). -/
structure Tail where
  id : GameId
  x1 : String
  y1 : ℚ
  x2 : String
  y2 : ℚ
  style : String
  isPlayed : Bool
  isStartNote : Bool
  circle : Circle
  class_ : String
deriving DecidableEq, Repr

/-- Element of the `exit` collection (source type `Circle | Tail`). -/
inductive ExitObj where
  | circle (c : Circle)
  | tail (t : Tail)
deriving DecidableEq, Repr

/-- Game state (source `State`). -/
structure State where
  backgroundCircles : List BgCircle
  circles : List Circle
  playedCircles : List Circle
  tails : List Tail
  finishedTails : List Tail
  exit : List ExitObj
  objCount : ℕ
  score : ℚ
  consecutiveHits : ℕ
  multiplier : ℚ
  randomNumber : ℚ
  gameEnd : Bool
deriving DecidableEq, Repr

/-- Column keys (source `ColumnKey`). -/
inductive ColumnKey where
  | KeyH
  | KeyJ
  | KeyK
  | KeyL
deriving DecidableEq, Repr

/-- Mapping of keys to their respective column positions (source
`keyToColumn`). -/
def keyToColumn : ColumnKey → String
  | .KeyH => "20%"
  | .KeyJ => "40%"
  | .KeyK => "60%"
  | .KeyL => "80%"

/-! Game constants (source `Constants`). -/
namespace Constants

def TICK_RATE_MS : ℚ := 5
def VELOCITY_NORMALISATION_FACTOR : ℚ := 1000
def STARTING_OBJ_COUNT : ℕ := 0
def TARGET_CY : ℚ := 350
def TARGET_RANGE : ℚ := 20
def EXPIRE_LIMIT : ℚ := 400
def STARTING_SCORE : ℚ := 0
def SCORE_INCREASE : ℚ := 10
def BASE_CONSECUTIVE_HITS : ℕ := 0
def BASE_MULTIPLIER : ℚ := 1
def MULTIPLIER_INCREASE : ℚ := 2/10
def HITS_PER_MULTIPLIER_INCREASE : ℕ := 10
def STARTING_RANDOM_NUMBER : ℚ := 1/10

end Constants

/-! Constants related to circles/notes (source `Note`). -/
namespace Note

def START_CY : ℚ := 0
def RADIUS : ℚ := 7/100 * 200
def TAIL_WIDTH : ℕ := 10
def MOVEMENT : ℚ := 1
def DURATION_FOR_TAIL : ℚ := 1

end Note

/-! ### Utility functions (source util.ts) -/

/-- Truncation toward zero, the integer part used by the JavaScript `%`
operator. -/
def ratTrunc (q : ℚ) : ℤ := if 0 ≤ q then ⌊q⌋ else ⌈q⌉

/-- The JavaScript remainder `x % m` on numbers: remainder of truncated
division, taking the sign of the dividend. -/
def jsMod (x m : ℚ) : ℚ := x - m * (ratTrunc (x / m))

namespace RNG

/-- LCG modulus `0x80000000 = 2^31` (source `RNG.m`). -/
def m : ℚ := 2147483648

/-- LCG multiplier (source `RNG.a`). -/
def a : ℚ := 1103515245

/-- LCG increment (source `RNG.c`). -/
def c : ℚ := 12345

/-- `hash(seed) = (a * seed + c) % m` (source `RNG.hash`), read with exact
rational arithmetic.  This is an idealization: the source evaluates the
expression on IEEE-754 binary64 numbers, which round the product
`a * seed` once it exceeds `2^53` — see `RNG.hashDouble` for the rounded
computation the engine actually performs on integer seeds. -/
def hash (seed : ℚ) : ℚ := jsMod (a * seed + c) m

/-- Scales a hash value to the range `[-1, 1]` (source `RNG.scale`). -/
def scale (hash : ℚ) : ℚ := 2 * hash / (m - 1) - 1

/-- Scales a hash value to the range `[min, max]` (source
`RNG.scaleToRange`). -/
def scaleToRange (hash min max : ℚ) : ℚ := min + (hash / (m - 1)) * (max - min)

end RNG

/-- Floor base-2 logarithm, written by structural recursion on a fuel
argument so that concrete evaluation reduces; `log2Aux_eq_log2` shows it
agrees with the library's `Nat.log2`. -/
def log2Aux : ℕ → ℕ → ℕ
  | 0, _ => 0
  | fuel + 1, n => if 2 ≤ n then log2Aux fuel (n / 2) + 1 else 0

/-- Floor base-2 logarithm (`log2Aux` with enough fuel). -/
def log2' (n : ℕ) : ℕ := log2Aux n n

lemma log2Aux_eq_log2 (fuel n : ℕ) (h : n ≤ fuel) :
    log2Aux fuel n = Nat.log2 n := by
  induction fuel generalizing n with
  | zero =>
    have hn : n = 0 := by omega
    subst hn
    rw [log2Aux, Nat.log2]
    norm_num
  | succ fuel ih =>
    rw [log2Aux, Nat.log2]
    by_cases h2 : 2 ≤ n
    · rw [if_pos h2, if_pos h2, ih (n / 2) (by omega)]
    · rw [if_neg h2, if_neg h2]

lemma log2_eq (n : ℕ) : log2' n = Nat.log2 n :=
  log2Aux_eq_log2 n n (le_refl n)

/-- Round-to-nearest-even of a natural number to 53 significant bits: the
value a JavaScript engine stores for an integer result in an IEEE-754
binary64.  Integers below `2^53` are exact; above, the trailing
`log2 n - 52` bits are rounded away, ties to the even significand. -/
def flNat (n : ℕ) : ℕ :=
  if n < 2 ^ 53 then n
  else
    let k := log2' n - 52
    let q := n / 2 ^ k
    let r := n % 2 ^ k
    (if 2 * r < 2 ^ k then q
     else if 2 * r > 2 ^ k then q + 1
     else if q % 2 = 0 then q else q + 1) * 2 ^ k

/-- The source's `RNG.hash` as the JavaScript engine actually computes it on
an integer seed: every intermediate result of `a * seed + c` is rounded to
binary64 precision (`flNat`), and the remainder of two exactly represented
nonnegative integers is exact.  For seeds of magnitude `2^23` and above the
product `1103515245 * seed` exceeds `2^53` and loses its low bits. -/
def RNG.hashDouble (seed : ℕ) : ℕ :=
  flNat (flNat (1103515245 * seed) + 12345) % 2 ^ 31

/-- Instrument list used by `generateRandomNote`. -/
def instrumentList : List String :=
  ["bass-electric", "violin", "piano", "trumpet", "saxophone", "trombone",
   "flute"]

/-- Generates a random note from a seed and returns a background circle with
that note (source `generateRandomNote`).  `Math.floor` is `Int.floor`; the
source indexes `instruments[instrumentIndex]`, in range for the seeds the
game produces, modelled with `List.getD`. -/
def generateRandomNote (seed : ℚ) : BgCircle :=
  let instrumentIndex := ⌊RNG.scaleToRange seed 0 (instrumentList.length : ℚ)⌋
  let instrumentName := instrumentList.getD instrumentIndex.toNat ""
  let velocity : ℚ := ⌊RNG.scaleToRange seed 30 127⌋
  let pitch : ℚ := ⌊RNG.scaleToRange seed 30 90⌋
  let length := RNG.scaleToRange seed 0 (1/2)
  { cy := Constants.TARGET_CY,
    note := { userPlayed := false, instrumentName := instrumentName,
              velocity := velocity, pitch := pitch, start := 0,
              end_ := length } }

/-- Composable not (source `not`); named `bnot'` to avoid clashing with the
Boolean complement. -/
def bnot' (f : α → Bool) (x : α) : Bool := !(f x)

/-- `elem` from util.ts: is `e` an element of `a` under `eq`? -/
def elemBy (eq : α → α → Bool) (a : List α) (e : α) : Bool := a.any (eq e)

/-- `except` from util.ts: `a` without anything (`eq`-)present in `b`. -/
def exceptBy (eq : α → α → Bool) (a b : List α) : List α :=
  a.filter (bnot' (elemBy eq b))

/-! ### Helper functions (source state.ts) -/

/-- Result record of `getColumnAndColour`. -/
structure ColumnColour where
  column : String
  colour : String
deriving DecidableEq, Repr

/-- Calculates the column and colour to which a circle belongs (source
`getColumnAndColour`).  `Math.min(Math.floor(...), 3)` on numbers is
`min ⌊...⌋ 3` on `ℤ`; the source indexes the four-element arrays with it,
modelled with `List.getD`. -/
def getColumnAndColour (noteData : NoteData) (minPitch maxPitch : ℚ) :
    ColumnColour :=
  let columnArray := ["20%", "40%", "60%", "80%"]
  let colourArray := ["green", "red", "blue", "yellow"]
  let intervalSize := (maxPitch - minPitch) / 4
  let index := min ⌊(noteData.pitch - minPitch) / intervalSize⌋ 3
  { column := columnArray.getD index.toNat "",
    colour := colourArray.getD index.toNat "" }

/-- Checks if a circle is aligned with the player's press/hold of a key
(source `isCircleAligned`). -/
def isCircleAligned (circle : Circle) (cx : String) : Bool :=
  decide (circle.cx = cx) &&
  decide (Constants.TARGET_CY - Constants.TARGET_RANGE ≤ circle.cy) &&
  decide (circle.cy ≤ Constants.TARGET_CY + Constants.TARGET_RANGE)

/-- Checks if the end of a tail is aligned with the player's release of a
key (source `isTailEndAligned`). -/
def isTailEndAligned (tail : Tail) (cx : String) : Bool :=
  decide (tail.x1 = cx) &&
  decide (Constants.TARGET_CY - Constants.TARGET_RANGE ≤ tail.y2) &&
  decide (tail.y2 ≤ Constants.TARGET_CY)

/-- Result record of `initialisePressAndHoldKey`. -/
structure PressHoldInit where
  alignedCircles : List Circle
  alignedTailCircles : List Circle
  remainingCircles : List Circle
deriving DecidableEq, Repr

/-- Initialises PressKey and HoldKey by filtering circles based on alignment
(source `initialisePressAndHoldKey`). -/
def initialisePressAndHoldKey (s : State) (key : ColumnKey) : PressHoldInit :=
  let cx := keyToColumn key
  let alignedCircles := s.circles.filter (fun c => isCircleAligned c cx)
  let alignedTailCircles := alignedCircles.filter (fun c => c.hasTail)
  let remainingCircles := s.circles.filter (fun c => !(isCircleAligned c cx))
  { alignedCircles := alignedCircles,
    alignedTailCircles := alignedTailCircles,
    remainingCircles := remainingCircles }

/-- `Number(q.toFixed(1))`: round to one decimal place.  JavaScript
`toFixed` picks the closer one-decimal value and rounds half up, which on
rationals is `round (q * 10) / 10`. -/
def toFixed1 (q : ℚ) : ℚ := (round (q * 10) : ℤ) / 10

/-- Calculates the new multiplier from the number of consecutive hits
(source `calculateNewMultiplier`): base multiplier 1 increased by 0.2 for
every 10 consecutive hits, rounded via `toFixed(1)`. -/
def calculateNewMultiplier (newConsecutiveHits : ℕ) : ℚ :=
  toFixed1 (Constants.BASE_MULTIPLIER +
    ((newConsecutiveHits / Constants.HITS_PER_MULTIPLIER_INCREASE : ℕ) : ℚ) *
      Constants.MULTIPLIER_INCREASE)

/-- Result record of `updateHitsAndMultiplier`. -/
structure HitsMult where
  newConsecutiveHits : ℕ
  newMultiplier : ℚ
deriving DecidableEq, Repr

/-- Updates consecutive hits and multiplier based on whether a miss occurred
(source `updateHitsAndMultiplier`). -/
def updateHitsAndMultiplier (isMiss : Bool) (consecutiveHits additionalHits : ℕ) :
    HitsMult :=
  let newConsecutiveHits :=
    if isMiss then Constants.BASE_CONSECUTIVE_HITS
    else consecutiveHits + additionalHits
  let newMultiplier :=
    if isMiss then Constants.BASE_MULTIPLIER
    else calculateNewMultiplier newConsecutiveHits
  { newConsecutiveHits := newConsecutiveHits, newMultiplier := newMultiplier }

/-- Result record of `addRandomBgCircle`. -/
structure RandBg where
  newRandomNumber : ℚ
  newBgCircles : List BgCircle
deriving DecidableEq, Repr

/-- On a miss, rehashes the random number and appends a random background
circle generated from the new seed (source `addRandomBgCircle`). -/
def addRandomBgCircle (isMiss : Bool) (randomNumber : ℚ)
    (backgroundCircles : List BgCircle) : RandBg :=
  let newRandomNumber := if isMiss then RNG.hash randomNumber else randomNumber
  let newBgCircles :=
    if isMiss then backgroundCircles ++ [generateRandomNote newRandomNumber]
    else backgroundCircles
  { newRandomNumber := newRandomNumber, newBgCircles := newBgCircles }

/-! ### State updates (source state.ts action classes) -/

/-- Moves a circle down by a fixed amount (source `Tick.moveCircle`, used at
type `Circle`). -/
def moveCircle (c : Circle) : Circle := { c with cy := c.cy + Note.MOVEMENT }

/-- Moves a background circle down by a fixed amount (source
`Tick.moveCircle`, used at type `BgCircle`). -/
def moveBgCircle (c : BgCircle) : BgCircle :=
  { c with cy := c.cy + Note.MOVEMENT }

/-- Moves a tail down by a fixed amount (source `Tick.moveTail`): a played
tail moves `y1` down until the target and `y2` down until it reaches `y1`;
an unplayed tail moves both together. -/
def moveTail (t : Tail) : Tail :=
  if t.isPlayed then
    { t with
      y1 := if Constants.TARGET_CY ≤ t.y1 then t.y1 else t.y1 + Note.MOVEMENT,
      y2 := if t.y2 = t.y1 then t.y2 else t.y2 + Note.MOVEMENT }
  else
    { t with y1 := t.y1 + Note.MOVEMENT, y2 := t.y2 + Note.MOVEMENT }

/-- `Tick.apply`: circles and tails move, missed circles, fully played
tails and expired objects are detected, and score, consecutive hits and
multiplier are updated accordingly. -/
def tickApply (s : State) : State :=
  let isCircleExpired := fun (c : Circle) =>
    decide (c.cy > Constants.EXPIRE_LIMIT)
  let isMissed := fun (c : Circle) =>
    decide (c.cy > Constants.TARGET_CY + Constants.TARGET_RANGE)
  let isTailExpired := fun (t : Tail) =>
    decide (t.y2 > Constants.EXPIRE_LIMIT)
  let isTailFullyPlayed := fun (t : Tail) => decide (t.y2 = t.y1)
  let expiredCircles := s.circles.filter isCircleExpired
  let activeCircles := s.circles.filter (bnot' isCircleExpired)
  let missedCircles := s.circles.filter isMissed
  let expiredTails := s.tails.filter isTailExpired
  let fullyPlayedTails := s.tails.filter isTailFullyPlayed
  let activeTails :=
    ((s.tails.filter (bnot' isTailExpired)).filter
        (bnot' isTailFullyPlayed)).map
      (fun t => { t with isStartNote := false })
  let isMissedCircles := decide (missedCircles.length > 0)
  let hm := updateHitsAndMultiplier isMissedCircles s.consecutiveHits
    fullyPlayedTails.length
  let newScore := s.score +
    (fullyPlayedTails.length : ℚ) * Constants.SCORE_INCREASE * hm.newMultiplier
  let newBgCircles := (s.backgroundCircles.map moveBgCircle).filter
    (fun c => decide (c.cy ≤ Constants.TARGET_CY))
  let newCircles := activeCircles.map moveCircle
  let newTails := activeTails.map moveTail
  { s with
    backgroundCircles := newBgCircles,
    circles := newCircles,
    playedCircles := [],
    tails := newTails,
    finishedTails := fullyPlayedTails,
    score := newScore,
    exit := expiredCircles.map ExitObj.circle ++ expiredTails.map ExitObj.tail,
    consecutiveHits := hm.newConsecutiveHits,
    multiplier := hm.newMultiplier }

/-- `CreateCircle.apply`: adds a new playable circle (and its tail when the
note is long enough) with fresh ids and bumps the object counter once. -/
def createCircleApply (noteData : NoteData) (minPitch maxPitch : ℚ)
    (s : State) : State :=
  let cc := getColumnAndColour noteData minPitch maxPitch
  let newCircle : Circle :=
    { id := { tag := IdTag.circle, counter := s.objCount },
      r := Note.RADIUS,
      cx := cc.column,
      cy := Note.START_CY,
      style := "fill: " ++ cc.colour,
      class_ := "playable",
      note := noteData,
      hasTail := decide (noteData.end_ - noteData.start > Note.DURATION_FOR_TAIL) }
  let tailLength : ℤ :=
    round ((noteData.end_ - noteData.start) * 1000 * Note.MOVEMENT /
      Constants.TICK_RATE_MS)
  let updatedTails :=
    if newCircle.hasTail then
      s.tails ++
        [{ id := { tag := IdTag.tail, counter := s.objCount },
           x1 := cc.column,
           y1 := Note.START_CY,
           x2 := cc.column,
           y2 := Note.START_CY - (tailLength : ℚ),
           style := "stroke:" ++ cc.colour ++ ";stroke-width:" ++
             toString Note.TAIL_WIDTH,
           isPlayed := false,
           isStartNote := false,
           circle := newCircle,
           class_ := "playable" }]
    else s.tails
  { s with
    circles := s.circles ++ [newCircle],
    tails := updatedTails,
    objCount := s.objCount + 1 }

/-- `CreateBgCircle.apply`: appends a new background circle, whose vertical
position is `Note.START_CY` (the top of the board). -/
def createBgCircleApply (noteData : NoteData) (s : State) : State :=
  { s with
    backgroundCircles :=
      s.backgroundCircles ++ [{ cy := Note.START_CY, note := noteData }] }

/-- `PressKey.apply`: press of a playable circle without a tail. -/
def pressKeyApply (key : ColumnKey) (s : State) : State :=
  let i := initialisePressAndHoldKey s key
  if i.alignedTailCircles.length > 0 then s
  else
    let isMiss := decide (i.alignedCircles.length = 0)
    let hm := updateHitsAndMultiplier isMiss s.consecutiveHits 1
    let newScore := s.score +
      (i.alignedCircles.length : ℚ) * Constants.SCORE_INCREASE *
        hm.newMultiplier
    let rb := addRandomBgCircle isMiss s.randomNumber s.backgroundCircles
    { s with
      circles := i.remainingCircles,
      playedCircles := i.alignedCircles,
      score := newScore,
      backgroundCircles := rb.newBgCircles,
      consecutiveHits := hm.newConsecutiveHits,
      multiplier := hm.newMultiplier,
      randomNumber := rb.newRandomNumber }

/-- `HoldKey.apply`: hold of a playable circle with a tail. -/
def holdKeyApply (key : ColumnKey) (s : State) : State :=
  let i := initialisePressAndHoldKey s key
  if i.alignedTailCircles.length = 0 then s
  else
    let alignedTails := s.tails.filter
      (fun t => i.alignedTailCircles.any (fun c => decide (c.id = t.circle.id)))
    let playedTails := alignedTails.map
      (fun t => { t with isPlayed := true, isStartNote := true })
    let remainingTails :=
      exceptBy (fun a b => decide (a.id = b.id)) s.tails playedTails
    { s with
      circles := i.remainingCircles,
      playedCircles := s.playedCircles ++ i.alignedTailCircles,
      tails := playedTails ++ remainingTails }

/-- `ReleaseKey.apply`: release of a key to let go of a tail. -/
def releaseKeyApply (key : ColumnKey) (s : State) : State :=
  let cx := keyToColumn key
  let playedTails :=
    (s.tails.filter (fun t => t.isPlayed)).filter
      (fun t => decide (t.x1 = cx))
  if playedTails.length = 0 && s.finishedTails.length = 0 then s
  else
    let updatedPlayedTails := playedTails.map
      (fun t => { t with isPlayed := isTailEndAligned t cx })
    let alignedPlayedTails := updatedPlayedTails.filter
      (fun t => isTailEndAligned t cx)
    let isMiss := decide (alignedPlayedTails.length = 0)
    let hm := updateHitsAndMultiplier isMiss s.consecutiveHits 0
    let remainingTails := s.tails.filter
      (fun t => !(playedTails.any (fun pt => decide (pt.id = t.id))))
    let rb := addRandomBgCircle isMiss s.randomNumber s.backgroundCircles
    { s with
      tails := updatedPlayedTails ++ remainingTails,
      backgroundCircles := rb.newBgCircles,
      consecutiveHits := hm.newConsecutiveHits,
      multiplier := hm.newMultiplier,
      randomNumber := rb.newRandomNumber }

/-- `EndGame.apply`: sets `gameEnd` to true. -/
def endGameApply (s : State) : State := { s with gameEnd := true }

/-- The seven action kinds (source classes implementing `Action`). -/
inductive Action where
  | tick (elapsed : ℚ)
  | createCircle (noteData : NoteData) (minPitch maxPitch : ℚ)
  | createBgCircle (noteData : NoteData)
  | pressKey (key : ColumnKey)
  | holdKey (key : ColumnKey)
  | releaseKey (key : ColumnKey)
  | endGame
deriving DecidableEq, Repr

/-- Dispatch of `apply` per action kind. -/
def Action.apply : Action → State → State
  | .tick _, s => tickApply s
  | .createCircle nd mn mx, s => createCircleApply nd mn mx s
  | .createBgCircle nd, s => createBgCircleApply nd s
  | .pressKey k, s => pressKeyApply k s
  | .holdKey k, s => holdKeyApply k s
  | .releaseKey k, s => releaseKeyApply k s
  | .endGame, s => endGameApply s

/-- State transducer (source `reduceState`): applies the action, but if the
game had already ended before the action, returns the old state. -/
def reduceState (s : State) (action : Action) : State :=
  let reducedState := action.apply s
  if s.gameEnd then s else reducedState

/-- Initial game state (source `initialState`). -/
def initialState : State :=
  { backgroundCircles := [],
    circles := [],
    playedCircles := [],
    tails := [],
    finishedTails := [],
    exit := [],
    objCount := Constants.STARTING_OBJ_COUNT,
    score := Constants.STARTING_SCORE,
    consecutiveHits := Constants.BASE_CONSECUTIVE_HITS,
    multiplier := Constants.BASE_MULTIPLIER,
    randomNumber := Constants.STARTING_RANDOM_NUMBER,
    gameEnd := false }

/-- Iterated `Tick` application. -/
def tickN (n : ℕ) (s : State) : State := tickApply^[n] s

/-! ### Verified properties

The arithmetic of the embedding is exact rational arithmetic; the library
marks the rational operations irreducible, which only blocks definitional
unfolding in concrete evaluations, so they are locally re-enabled for the
proofs below. -/

section

attribute [local semireducible] Rat.add Rat.sub Rat.mul Rat.inv
  Rat.ofScientific

/-- C1: once `gameEnd` was true before the action, the reducer returns the
pre-action state unchanged, for every action. -/
theorem C1_reduceState_terminal (s : State) (a : Action) (h : s.gameEnd = true) :
    reduceState s a = s := by
  simp [reduceState, h]

/-- Witness for C1 at a concrete ended state and a concrete action. -/
theorem C1_reduceState_terminal_witness :
    (endGameApply initialState).gameEnd = true ∧
    reduceState (endGameApply initialState) (Action.tick 1) =
      endGameApply initialState :=
  ⟨rfl, C1_reduceState_terminal (endGameApply initialState) (Action.tick 1) rfl⟩

/-- The spec's multiplier formula, written from the spec's words:
`round(1 + floor(h/10)*0.2, 1)`. -/
def specMultiplierFor (h : ℕ) : ℚ := toFixed1 (1 + ((h / 10 : ℕ) : ℚ) * (2/10))

/-- C2: for every non-negative integer `h` the computed multiplier equals
`round(1 + floor(h/10)*0.2, 1)` (which is exactly `(10 + 2*(h/10))/10`),
and in particular it is `1.0` at `0`, `1.2` at `10` and `2.8` at `95`. -/
theorem C2_multiplier_formula :
    (∀ h : ℕ, calculateNewMultiplier h = specMultiplierFor h ∧
      calculateNewMultiplier h = ((10 + 2 * (h / 10) : ℕ) : ℚ) / 10) ∧
    calculateNewMultiplier 0 = 1 ∧
    calculateNewMultiplier 10 = 12/10 ∧
    calculateNewMultiplier 95 = 28/10 := by
  have key : ∀ h : ℕ,
      calculateNewMultiplier h = ((10 + 2 * (h / 10) : ℕ) : ℚ) / 10 := by
    intro h
    unfold calculateNewMultiplier toFixed1 Constants.BASE_MULTIPLIER
      Constants.HITS_PER_MULTIPLIER_INCREASE Constants.MULTIPLIER_INCREASE
    have harg : (1 + ((h / 10 : ℕ) : ℚ) * (2/10)) * 10 =
        ((10 + 2 * (h / 10) : ℕ) : ℚ) := by
      push_cast
      ring
    rw [harg, round_natCast, Int.cast_natCast]
  refine ⟨fun h => ⟨rfl, key h⟩, ?_, ?_, ?_⟩
  · rw [key 0]
    norm_num
  · rw [key 10]
    norm_num
  · rw [key 95]
    norm_num

/-- C5 counterexample: at a concrete note and state, the circle appended by
`CreateBgCircle` is not at the target row `TARGET_CY` (it is at
`START_CY = 0`, the top). -/
theorem C5_counterexample :
    ((Action.createBgCircle
        { userPlayed := false, instrumentName := "piano", velocity := 64,
          pitch := 60, start := 0, end_ := 0 }).apply initialState).backgroundCircles ≠
      initialState.backgroundCircles ++
        [{ cy := Constants.TARGET_CY,
           note := { userPlayed := false, instrumentName := "piano",
                     velocity := 64, pitch := 60, start := 0, end_ := 0 } }] := by
  decide

/-- C5 (amended): `CreateBgCircle` appends exactly one background circle
whose vertical position is `START_CY` (the top of the board, not the target
row), leaving all other state fields unchanged. -/
theorem C5_createBgCircle (s : State) (nd : NoteData) :
    (Action.createBgCircle nd).apply s =
      { s with backgroundCircles :=
          s.backgroundCircles ++ [{ cy := Note.START_CY, note := nd }] } := rfl

/-- C10: a `Tick` that detects at least one missed circle resets the combo
but leaves `randomNumber` unchanged and appends no filler: the background
circles after the tick are exactly the moved-and-filtered prior
collection. -/
theorem C10_tick_miss_no_filler (s : State) (e : ℚ)
    (h : s.circles.filter
      (fun c => decide (c.cy > Constants.TARGET_CY + Constants.TARGET_RANGE)) ≠ []) :
    ((Action.tick e).apply s).consecutiveHits = 0 ∧
    ((Action.tick e).apply s).multiplier = 1 ∧
    ((Action.tick e).apply s).randomNumber = s.randomNumber ∧
    ((Action.tick e).apply s).backgroundCircles =
      (s.backgroundCircles.map moveBgCircle).filter
        (fun c => decide (c.cy ≤ Constants.TARGET_CY)) := by
  have hlen : 0 < (s.circles.filter
      (fun c => decide (c.cy > Constants.TARGET_CY + Constants.TARGET_RANGE))).length :=
    List.length_pos.mpr h
  simp only [Action.apply, tickApply, updateHitsAndMultiplier,
    decide_eq_true (by exact hlen)]
  simp [Constants.BASE_MULTIPLIER, Constants.BASE_CONSECUTIVE_HITS]

/-- Witness for C10 at a concrete state with one missed circle. -/
theorem C10_tick_miss_no_filler_witness :
    ({ initialState with circles :=
        [{ id := ⟨IdTag.circle, 0⟩, r := 14, cx := "20%", cy := 371,
           style := "", class_ := "playable",
           note := { userPlayed := true, instrumentName := "piano",
                     velocity := 64, pitch := 60, start := 0, end_ := 0 },
           hasTail := false }] } : State).circles.filter
      (fun c => decide (c.cy > Constants.TARGET_CY + Constants.TARGET_RANGE)) ≠ [] ∧
    ((Action.tick 1).apply
      { initialState with circles :=
        [{ id := ⟨IdTag.circle, 0⟩, r := 14, cx := "20%", cy := 371,
           style := "", class_ := "playable",
           note := { userPlayed := true, instrumentName := "piano",
                     velocity := 64, pitch := 60, start := 0, end_ := 0 },
           hasTail := false }] }).consecutiveHits = 0 :=
  ⟨by decide,
   (C10_tick_miss_no_filler
     { initialState with circles :=
        [{ id := ⟨IdTag.circle, 0⟩, r := 14, cx := "20%", cy := 371,
           style := "", class_ := "playable",
           note := { userPlayed := true, instrumentName := "piano",
                     velocity := 64, pitch := 60, start := 0, end_ := 0 },
           hasTail := false }] } 1 (by decide)).1⟩

/-- `isTailEndAligned` does not read `isPlayed`, so it is unchanged by an
`isPlayed` update. -/
lemma isTailEndAligned_update (a : Tail) (b : Bool) (cx : String) :
    isTailEndAligned { a with isPlayed := b } cx = isTailEndAligned a cx := rfl

/-- Filtering the `isPlayed`-updated tails by end-alignment is the update of
the end-aligned ones. -/
lemma filter_aligned_map_update (l : List Tail) (cx : String) :
    (l.map (fun t => { t with isPlayed := isTailEndAligned t cx })).filter
        (fun t => isTailEndAligned t cx) =
      (l.filter (fun t => isTailEndAligned t cx)).map
        (fun t => { t with isPlayed := isTailEndAligned t cx }) := by
  induction l with
  | nil => rfl
  | cons a l ih =>
    by_cases hA : isTailEndAligned a cx = true <;>
      simp [List.filter_cons, isTailEndAligned_update, hA, ih]

/-- C3: every action path that computes a miss — a `PressKey` with no
aligned circle at the key's column, a `ReleaseKey` (that is not a no-op)
with no end-aligned played tail at the key's column, and a `Tick` with at
least one missed circle — resets `consecutiveHits` to `0` and `multiplier`
to `1`. -/
theorem C3_miss_resets_combo :
    (∀ (s : State) (k : ColumnKey),
      s.circles.filter (fun c => isCircleAligned c (keyToColumn k)) = [] →
      ((Action.pressKey k).apply s).consecutiveHits = 0 ∧
      ((Action.pressKey k).apply s).multiplier = 1) ∧
    (∀ (s : State) (k : ColumnKey),
      ((s.tails.filter (fun t => t.isPlayed)).filter
        (fun t => decide (t.x1 = keyToColumn k))).filter
          (fun t => isTailEndAligned t (keyToColumn k)) = [] →
      ¬((s.tails.filter (fun t => t.isPlayed)).filter
          (fun t => decide (t.x1 = keyToColumn k)) = [] ∧
        s.finishedTails = []) →
      ((Action.releaseKey k).apply s).consecutiveHits = 0 ∧
      ((Action.releaseKey k).apply s).multiplier = 1) ∧
    (∀ (s : State) (e : ℚ),
      s.circles.filter
        (fun c =>
          decide (c.cy > Constants.TARGET_CY + Constants.TARGET_RANGE)) ≠ [] →
      ((Action.tick e).apply s).consecutiveHits = 0 ∧
      ((Action.tick e).apply s).multiplier = 1) := by
  refine ⟨?_, ?_, ?_⟩
  · intro s k h
    constructor <;>
      simp [Action.apply, pressKeyApply, initialisePressAndHoldKey, h,
        updateHitsAndMultiplier, Constants.BASE_CONSECUTIVE_HITS,
        Constants.BASE_MULTIPLIER]
  · intro s k h1 h2
    have hupd : (((s.tails.filter (fun t => t.isPlayed)).filter
        (fun t => decide (t.x1 = keyToColumn k))).map
          (fun t =>
            { t with isPlayed := isTailEndAligned t (keyToColumn k) })).filter
        (fun t => isTailEndAligned t (keyToColumn k)) = [] := by
      rw [filter_aligned_map_update, h1]
      rfl
    have hcond : (decide (((s.tails.filter (fun t => t.isPlayed)).filter
          (fun t => decide (t.x1 = keyToColumn k))).length = 0) &&
        decide (s.finishedTails.length = 0)) = false := by
      rcases not_and_or.mp h2 with hpt | hft
      · have hl : ((s.tails.filter (fun t => t.isPlayed)).filter
            (fun t => decide (t.x1 = keyToColumn k))).length ≠ 0 :=
          fun hl => hpt (List.length_eq_zero.mp hl)
        rw [decide_eq_false hl, Bool.false_and]
      · have hl : s.finishedTails.length ≠ 0 :=
          fun hl => hft (List.length_eq_zero.mp hl)
        rw [decide_eq_false hl, Bool.and_false]
    constructor <;>
    · simp only [Action.apply, releaseKeyApply]
      rw [if_neg (by rw [hcond]; exact Bool.false_ne_true)]
      simp only [hupd]
      simp [updateHitsAndMultiplier, Constants.BASE_CONSECUTIVE_HITS,
        Constants.BASE_MULTIPLIER]
  · intro s e h
    have hlen : 0 < (s.circles.filter
        (fun c =>
          decide (c.cy > Constants.TARGET_CY + Constants.TARGET_RANGE))).length :=
      List.length_pos.mpr h
    constructor <;>
      simp [Action.apply, tickApply, decide_eq_true hlen,
        updateHitsAndMultiplier, Constants.BASE_CONSECUTIVE_HITS,
        Constants.BASE_MULTIPLIER]

/-- Concrete state for the C3 witness: a played tail well past the scoring
window in the pressed column. -/
def C3tail : Tail :=
  { id := ⟨IdTag.tail, 0⟩, x1 := "20%", y1 := 350, x2 := "20%", y2 := 360,
    style := "", isPlayed := true, isStartNote := false,
    circle := { id := ⟨IdTag.circle, 0⟩, r := 14, cx := "20%", cy := 371,
                style := "", class_ := "playable",
                note := { userPlayed := true, instrumentName := "piano",
                          velocity := 64, pitch := 60, start := 0, end_ := 2 },
                hasTail := true },
    class_ := "playable" }

/-- Witness for C3 at concrete states for all three action paths. -/
theorem C3_miss_resets_combo_witness :
    (((Action.pressKey ColumnKey.KeyH).apply initialState).consecutiveHits = 0 ∧
      ((Action.pressKey ColumnKey.KeyH).apply initialState).multiplier = 1) ∧
    (((Action.releaseKey ColumnKey.KeyH).apply
        { initialState with tails := [C3tail] }).consecutiveHits = 0 ∧
      ((Action.releaseKey ColumnKey.KeyH).apply
        { initialState with tails := [C3tail] }).multiplier = 1) ∧
    (((Action.tick 1).apply
        { initialState with circles := [C3tail.circle] }).consecutiveHits = 0 ∧
      ((Action.tick 1).apply
        { initialState with circles := [C3tail.circle] }).multiplier = 1) :=
  ⟨C3_miss_resets_combo.1 initialState ColumnKey.KeyH (by decide),
   C3_miss_resets_combo.2.1 { initialState with tails := [C3tail] }
     ColumnKey.KeyH (by decide) (by decide),
   C3_miss_resets_combo.2.2 { initialState with circles := [C3tail.circle] }
     1 (by decide)⟩

/-- Concrete aligned tailless circle at column `"20%"` for C4. -/
def C4c : Circle :=
  { id := ⟨IdTag.circle, 0⟩, r := 14, cx := "20%", cy := 350,
    style := "fill: green", class_ := "playable",
    note := { userPlayed := true, instrumentName := "piano", velocity := 64,
              pitch := 60, start := 0, end_ := 0 },
    hasTail := false }

/-- Concrete pre-action state for C4 with nine consecutive hits, so that the
press crosses a multiplier step. -/
def C4s : State := { initialState with circles := [C4c], consecutiveHits := 9 }

/-- C4 counterexample: at a state holding exactly one tailless circle
aligned at column `"20%"` and `consecutiveHits = 9`, `PressKey("KeyH")`
increases the score by `10 * calculateNewMultiplier 10 = 12`, not by
`10 * currentMultiplier = 10` of the pre-action state. -/
theorem C4_counterexample :
    C4s.circles.filter (fun x => isCircleAligned x "20%") = [C4c] ∧
    C4c.hasTail = false ∧
    ((Action.pressKey ColumnKey.KeyH).apply C4s).score ≠
      C4s.score + Constants.SCORE_INCREASE * C4s.multiplier := by
  decide

/-- C4 (amended): for every state whose circles aligned at column `"20%"`
are exactly one tailless circle `c`, `PressKey("KeyH")` increases the score
by exactly `10 * calculateNewMultiplier (consecutiveHits + 1)` — the
multiplier of the post-action state — moves `c` into `playedCircles`, and
removes it from `circles`. -/
theorem C4_clean_hit (s : State) (c : Circle)
    (halign : s.circles.filter (fun x => isCircleAligned x "20%") = [c])
    (htail : c.hasTail = false) :
    ((Action.pressKey ColumnKey.KeyH).apply s).score =
      s.score + Constants.SCORE_INCREASE *
        calculateNewMultiplier (s.consecutiveHits + 1) ∧
    ((Action.pressKey ColumnKey.KeyH).apply s).playedCircles = [c] ∧
    c ∉ ((Action.pressKey ColumnKey.KeyH).apply s).circles := by
  have hcal : isCircleAligned c "20%" = true := by
    have hc : c ∈ s.circles.filter (fun x => isCircleAligned x "20%") := by
      rw [halign]
      exact List.mem_singleton.mpr rfl
    exact (List.mem_filter.mp hc).2
  refine ⟨?_, ?_, ?_⟩
  · simp [Action.apply, pressKeyApply, initialisePressAndHoldKey, keyToColumn,
      halign, htail, updateHitsAndMultiplier]
  · simp [Action.apply, pressKeyApply, initialisePressAndHoldKey, keyToColumn,
      halign, htail]
  · intro hmem
    have hnot : (fun x => !(isCircleAligned x "20%")) c = true := by
      have hsub : ((Action.pressKey ColumnKey.KeyH).apply s).circles =
          s.circles.filter (fun x => !(isCircleAligned x "20%")) := by
        simp [Action.apply, pressKeyApply, initialisePressAndHoldKey,
          keyToColumn, halign, htail]
      rw [hsub] at hmem
      exact (List.mem_filter.mp hmem).2
    simp [hcal] at hnot

/-- Witness for C4 (amended) at the concrete C4 state. -/
theorem C4_clean_hit_witness :
    ((Action.pressKey ColumnKey.KeyH).apply C4s).score =
      C4s.score + Constants.SCORE_INCREASE *
        calculateNewMultiplier (C4s.consecutiveHits + 1) ∧
    ((Action.pressKey ColumnKey.KeyH).apply C4s).playedCircles = [C4c] ∧
    C4c ∉ ((Action.pressKey ColumnKey.KeyH).apply C4s).circles :=
  C4_clean_hit C4s C4c (by decide) (by decide)

/-- C9: when no tail in the released key's column is being played but
`finishedTails` is not empty, `ReleaseKey` does not no-op: it computes a
miss — `consecutiveHits` reset to `0`, `multiplier` to `1`, `randomNumber`
rehashed, and one filler background circle appended — while the active
tails are untouched. -/
theorem C9_release_ghost_miss (s : State) (k : ColumnKey)
    (h1 : (s.tails.filter (fun t => t.isPlayed)).filter
      (fun t => decide (t.x1 = keyToColumn k)) = [])
    (h2 : s.finishedTails ≠ []) :
    ((Action.releaseKey k).apply s).consecutiveHits = 0 ∧
    ((Action.releaseKey k).apply s).multiplier = 1 ∧
    ((Action.releaseKey k).apply s).randomNumber = RNG.hash s.randomNumber ∧
    ((Action.releaseKey k).apply s).backgroundCircles =
      s.backgroundCircles ++ [generateRandomNote (RNG.hash s.randomNumber)] ∧
    ((Action.releaseKey k).apply s).tails = s.tails := by
  refine ⟨?_, ?_, ?_, ?_, ?_⟩ <;>
    simp [Action.apply, releaseKeyApply, h1, h2, List.length_eq_zero,
      updateHitsAndMultiplier, addRandomBgCircle,
      Constants.BASE_CONSECUTIVE_HITS, Constants.BASE_MULTIPLIER]

/-- Witness for C9: releasing `"KeyH"` with one finished tail and no played
tails computes a miss. -/
theorem C9_release_ghost_miss_witness :
    ((Action.releaseKey ColumnKey.KeyH).apply
      { initialState with finishedTails := [C3tail] }).consecutiveHits = 0 ∧
    ((Action.releaseKey ColumnKey.KeyH).apply
      { initialState with finishedTails := [C3tail] }).multiplier = 1 ∧
    ((Action.releaseKey ColumnKey.KeyH).apply
      { initialState with finishedTails := [C3tail] }).randomNumber =
      RNG.hash ({ initialState with
        finishedTails := [C3tail] } : State).randomNumber ∧
    ((Action.releaseKey ColumnKey.KeyH).apply
      { initialState with finishedTails := [C3tail] }).backgroundCircles =
      ({ initialState with finishedTails := [C3tail] } : State).backgroundCircles ++
        [generateRandomNote (RNG.hash ({ initialState with
          finishedTails := [C3tail] } : State).randomNumber)] ∧
    ((Action.releaseKey ColumnKey.KeyH).apply
      { initialState with finishedTails := [C3tail] }).tails =
      ({ initialState with finishedTails := [C3tail] } : State).tails :=
  C9_release_ghost_miss { initialState with finishedTails := [C3tail] }
    ColumnKey.KeyH (by decide) (by decide)

/-- Concrete tail exactly as claim C6 states it: `y1 = 100`, `y2 = 80`,
`isPlayed = true`. -/
def C6tail : Tail :=
  { id := ⟨IdTag.tail, 0⟩, x1 := "20%", y1 := 100, x2 := "20%", y2 := 80,
    style := "", isPlayed := true, isStartNote := false,
    circle := { id := ⟨IdTag.circle, 0⟩, r := 14, cx := "20%", cy := 350,
                style := "", class_ := "playable",
                note := { userPlayed := true, instrumentName := "piano",
                          velocity := 64, pitch := 60, start := 0, end_ := 2 },
                hasTail := true },
    class_ := "playable" }

/-- C6 state with the claim's tail as its only tail. -/
def C6s : State := { initialState with tails := [C6tail] }

/-- C6 counterexample: from the claim's tail (`y1 = 100`, `y2 = 80`,
played) — whose `y1` is below `TARGET_CY = 350`, so both endpoints advance
each tick — 20 ticks yield `y1 = 120, y2 = 100`: the endpoints are not
equal after 20 ticks and the tail is not in `finishedTails`. -/
theorem C6_counterexample :
    (tickN 20 C6s).tails.map (fun t => (t.y1, t.y2)) = [(120, 100)] ∧
    (tickN 20 C6s).tails.all (fun t => decide (t.y1 = t.y2)) = false ∧
    (tickN 20 C6s).finishedTails = [] := by
  decide

/-- C6 state with the tail's leading endpoint already at the target row
(`y1 = 350`, `y2 = 330`), the situation the claim's side condition
describes. -/
def C6sa : State :=
  { initialState with tails := [{ C6tail with y1 := 350, y2 := 330 }] }

/-- C6 (amended): for a played tail whose `y1` is already at `TARGET_CY`
and whose trailing endpoint is 20 units behind (`y1 = 350`, `y2 = 330`),
only `y2` advances; the endpoints become equal in exactly 20 ticks, the
tail appears in `finishedTails` on the following tick, and is never again
among the active tails. -/
theorem C6_tail_completion :
    (∀ k, k < 20 →
      (tickN k C6sa).tails.all (fun t => !(decide (t.y1 = t.y2))) = true) ∧
    (tickN 20 C6sa).tails.map (fun t => (t.y1, t.y2)) = [(350, 350)] ∧
    (tickN 21 C6sa).finishedTails.map (fun t => t.id) = [⟨IdTag.tail, 0⟩] ∧
    (∀ m, 21 ≤ m → (tickN m C6sa).tails = []) := by
  refine ⟨by decide, by decide, by decide, ?_⟩
  intro m hm
  obtain ⟨j, rfl⟩ : ∃ j, m = 21 + j := ⟨m - 21, by omega⟩
  clear hm
  have step : ∀ st : State, st.tails = [] → (tickApply st).tails = [] := by
    intro st hst
    simp [tickApply, hst]
  induction j with
  | zero => decide
  | succ n ih =>
    have hsucc : tickN (21 + (n + 1)) C6sa = tickApply (tickN (21 + n) C6sa) := by
      show tickApply^[21 + (n + 1)] C6sa = _
      rw [show 21 + (n + 1) = (21 + n) + 1 by omega,
        Function.iterate_succ_apply']
      rfl
    rw [hsucc]
    exact step _ ih

/-- Witness for C6 (amended) at concrete tick counts. -/
theorem C6_tail_completion_witness :
    (tickN 5 C6sa).tails.all (fun t => !(decide (t.y1 = t.y2))) = true ∧
    (tickN 25 C6sa).tails = [] :=
  ⟨C6_tail_completion.1 5 (by norm_num), C6_tail_completion.2.2.2 25 (by norm_num)⟩

set_option maxRecDepth 4096 in
/-- C7: the source computes the LCG step `(1103515245 * seed + 12345) % m`
on IEEE-754 binary64 numbers with no wide intermediate, so `hash` does not
satisfy the exact modular arithmetic the claim (and the spec's
64-bit-intermediate requirement) demands.  At seed `110363869` the product
occupies 57 bits; the engine rounds it to 53, and the code returns
`1181718624` where exact modular arithmetic — the value of the
exact-rational reading `RNG.hash` — gives `1181718610`. -/
theorem C7_hash_double_rounding :
    RNG.hashDouble 110363869 = 1181718624 ∧
    (1103515245 * 110363869 + 12345) % 2 ^ 31 = 1181718610 ∧
    RNG.hash ((110363869 : ℕ) : ℚ) = ((1181718610 : ℕ) : ℚ) ∧
    RNG.hashDouble 110363869 ≠ (1103515245 * 110363869 + 12345) % 2 ^ 31 := by
  refine ⟨by decide, by decide, ?_, by decide⟩
  show jsMod _ _ = _
  decide

/-- The spawn actions: `CreateCircle` and `CreateBgCircle`. -/
def IsSpawn : Action → Prop
  | Action.createCircle _ _ _ => True
  | Action.createBgCircle _ => True
  | _ => False

/-- Left fold of a sequence of actions over a state by direct `apply`. -/
def applyAll (acts : List Action) (s : State) : State :=
  acts.foldl (fun st a => a.apply st) s

/-- Id well-formedness: every live circle id is a circle-tagged counter
below `objCount`, every live tail id a tail-tagged counter below
`objCount`, and the circle ids and the tail ids are each duplicate-free. -/
def WF (s : State) : Prop :=
  (∀ i ∈ s.circles.map (fun c => c.id),
    i.tag = IdTag.circle ∧ i.counter < s.objCount) ∧
  (∀ i ∈ s.tails.map (fun t => t.id),
    i.tag = IdTag.tail ∧ i.counter < s.objCount) ∧
  (s.circles.map (fun c => c.id)).Nodup ∧
  (s.tails.map (fun t => t.id)).Nodup

/-- Shape of a `CreateCircle` step on the id level: one fresh circle id is
appended, at most one fresh tail id with the same counter, and the object
counter is bumped once. -/
lemma createCircleApply_shape (nd : NoteData) (mn mx : ℚ) (s : State) :
    (createCircleApply nd mn mx s).objCount = s.objCount + 1 ∧
    (createCircleApply nd mn mx s).circles.map (fun c => c.id) =
      s.circles.map (fun c => c.id) ++ [⟨IdTag.circle, s.objCount⟩] ∧
    ((createCircleApply nd mn mx s).tails.map (fun t => t.id) =
        s.tails.map (fun t => t.id) ∨
      (createCircleApply nd mn mx s).tails.map (fun t => t.id) =
        s.tails.map (fun t => t.id) ++ [⟨IdTag.tail, s.objCount⟩]) := by
  refine ⟨rfl, by simp [createCircleApply], ?_⟩
  cases hb : decide (nd.end_ - nd.start > Note.DURATION_FOR_TAIL)
  · left
    simp [createCircleApply, hb]
  · right
    simp [createCircleApply, hb]

/-- A fresh id list extension preserves the bounded-counter condition and
duplicate-freeness when the counter bound is bumped by one. -/
lemma ids_extend (ids : List GameId) (tag : IdTag) (n : ℕ)
    (h : ∀ i ∈ ids, i.tag = tag ∧ i.counter < n) (hn : ids.Nodup) :
    (∀ i ∈ ids ++ [GameId.mk tag n], i.tag = tag ∧ i.counter < n + 1) ∧
    (ids ++ [GameId.mk tag n]).Nodup := by
  constructor
  · intro i hi
    rcases List.mem_append.mp hi with hi | hi
    · exact ⟨(h i hi).1, Nat.lt_succ_of_lt (h i hi).2⟩
    · rw [List.mem_singleton.mp hi]
      exact ⟨rfl, Nat.lt_succ_self n⟩
  · rw [List.nodup_append]
    refine ⟨hn, List.nodup_singleton _, ?_⟩
    intro i hi hmem
    rw [List.mem_singleton.mp hmem] at hi
    exact absurd (h _ hi).2 (Nat.lt_irrefl n)

/-- A single spawn action preserves id well-formedness and never decreases
the object counter. -/
lemma spawn_step_WF (a : Action) (s : State) (ha : IsSpawn a) (h : WF s) :
    WF (a.apply s) ∧ s.objCount ≤ (a.apply s).objCount := by
  obtain ⟨h1, h2, h3, h4⟩ := h
  cases a with
  | createCircle nd mn mx =>
    obtain ⟨hobj, hcirc, htail⟩ := createCircleApply_shape nd mn mx s
    have hc := ids_extend _ IdTag.circle s.objCount h1 h3
    refine ⟨⟨?_, ?_, ?_, ?_⟩, ?_⟩
    · rw [show (Action.createCircle nd mn mx).apply s =
        createCircleApply nd mn mx s from rfl, hcirc, hobj]
      exact hc.1
    · rw [show (Action.createCircle nd mn mx).apply s =
        createCircleApply nd mn mx s from rfl, hobj]
      rcases htail with ht | ht
      · rw [ht]
        intro i hi
        exact ⟨(h2 i hi).1, Nat.lt_succ_of_lt (h2 i hi).2⟩
      · rw [ht]
        exact (ids_extend _ IdTag.tail s.objCount h2 h4).1
    · rw [show (Action.createCircle nd mn mx).apply s =
        createCircleApply nd mn mx s from rfl, hcirc]
      exact hc.2
    · rw [show (Action.createCircle nd mn mx).apply s =
        createCircleApply nd mn mx s from rfl]
      rcases htail with ht | ht
      · rw [ht]
        exact h4
      · rw [ht]
        exact (ids_extend _ IdTag.tail s.objCount h2 h4).2
    · rw [show (Action.createCircle nd mn mx).apply s =
        createCircleApply nd mn mx s from rfl, hobj]
      exact Nat.le_succ _
  | createBgCircle nd => exact ⟨⟨h1, h2, h3, h4⟩, le_refl _⟩
  | tick e => exact absurd ha (by simp [IsSpawn])
  | pressKey k => exact absurd ha (by simp [IsSpawn])
  | holdKey k => exact absurd ha (by simp [IsSpawn])
  | releaseKey k => exact absurd ha (by simp [IsSpawn])
  | endGame => exact absurd ha (by simp [IsSpawn])

/-- Spawn sequences preserve id well-formedness and the object counter is
monotone along them. -/
lemma applyAll_WF (acts : List Action) (s : State)
    (hacts : ∀ a ∈ acts, IsSpawn a) (h : WF s) :
    WF (applyAll acts s) ∧ s.objCount ≤ (applyAll acts s).objCount := by
  induction acts generalizing s with
  | nil => exact ⟨h, le_refl _⟩
  | cons a acts ih =>
    obtain ⟨hw, hle⟩ :=
      spawn_step_WF a s (hacts a (List.mem_cons_self a acts)) h
    obtain ⟨hw2, hle2⟩ :=
      ih (a.apply s) (fun x hx => hacts x (List.mem_cons_of_mem a hx)) hw
    exact ⟨hw2, le_trans hle hle2⟩

/-- In a well-formed state no two live entities (circles or tails) share an
id: the tags separate the two lists and each list is duplicate-free. -/
lemma WF_ids_nodup (s : State) (h : WF s) :
    (s.circles.map (fun c => c.id) ++ s.tails.map (fun t => t.id)).Nodup := by
  obtain ⟨h1, h2, h3, h4⟩ := h
  rw [List.nodup_append]
  refine ⟨h3, h4, ?_⟩
  intro i hic hit
  have hcirc := (h1 i hic).1
  have htail := (h2 i hit).1
  rw [hcirc] at htail
  exact IdTag.noConfusion htail

/-- Circle for the C8 counterexample: its id embeds counter `5` although
the state's `objCount` is `0`. -/
def C8badCircle : Circle :=
  { id := ⟨IdTag.circle, 5⟩, r := 14, cx := "20%", cy := 0,
    style := "", class_ := "playable",
    note := { userPlayed := true, instrumentName := "piano", velocity := 64,
              pitch := 60, start := 0, end_ := 0 },
    hasTail := false }

/-- Note data for the C8 theorems. -/
def C8nd : NoteData :=
  { userPlayed := true, instrumentName := "piano", velocity := 64,
    pitch := 60, start := 0, end_ := 2 }

/-- C8 counterexample: from an arbitrary (ill-formed) starting state — here
one whose only circle already carries counter `5` while `objCount = 0` — a
spawn sequence does not give every live id a counter below the final
`objCount`; the claim's "from any State" is too strong. -/
theorem C8_counterexample :
    ¬(∀ c ∈ (applyAll [Action.createBgCircle C8nd]
        { initialState with circles := [C8badCircle] }).circles,
      c.id.counter < (applyAll [Action.createBgCircle C8nd]
        { initialState with circles := [C8badCircle] }).objCount) := by
  decide

/-- C8 (amended): from any state satisfying the id well-formedness
invariant `WF` (as `initialState` does), every sequence of spawn actions
preserves `WF`, never decreases `objCount`, leaves every live circle and
tail id with a counter strictly below the final `objCount`, and no two
live entities share an id; moreover a `CreateCircle` whose note is long
enough for a tail appends a circle id and a tail id sharing the one
counter value `objCount`, which is incremented once for the pair. -/
theorem C8_monotonic_ids :
    (∀ (acts : List Action) (s : State), (∀ a ∈ acts, IsSpawn a) → WF s →
      WF (applyAll acts s) ∧
      s.objCount ≤ (applyAll acts s).objCount ∧
      (((applyAll acts s).circles.map (fun c => c.id)) ++
        ((applyAll acts s).tails.map (fun t => t.id))).Nodup ∧
      (∀ i ∈ (applyAll acts s).circles.map (fun c => c.id),
        i.counter < (applyAll acts s).objCount) ∧
      (∀ i ∈ (applyAll acts s).tails.map (fun t => t.id),
        i.counter < (applyAll acts s).objCount)) ∧
    (∀ (s : State) (nd : NoteData) (mn mx : ℚ),
      nd.end_ - nd.start > Note.DURATION_FOR_TAIL →
      ((Action.createCircle nd mn mx).apply s).circles.map (fun c => c.id) =
        s.circles.map (fun c => c.id) ++ [⟨IdTag.circle, s.objCount⟩] ∧
      ((Action.createCircle nd mn mx).apply s).tails.map (fun t => t.id) =
        s.tails.map (fun t => t.id) ++ [⟨IdTag.tail, s.objCount⟩] ∧
      ((Action.createCircle nd mn mx).apply s).objCount = s.objCount + 1) := by
  constructor
  · intro acts s hacts h
    obtain ⟨hw, hle⟩ := applyAll_WF acts s hacts h
    exact ⟨hw, hle, WF_ids_nodup _ hw, fun i hi => (hw.1 i hi).2,
      fun i hi => (hw.2.1 i hi).2⟩
  · intro s nd mn mx hdur
    refine ⟨by simp [Action.apply, createCircleApply], ?_,  rfl⟩
    have hb : decide (nd.end_ - nd.start > Note.DURATION_FOR_TAIL) = true :=
      decide_eq_true hdur
    simp [Action.apply, createCircleApply, hb]

/-- Witness for C8 (amended): a circle spawn (tailed) followed by a
background spawn from the initial state. -/
theorem C8_monotonic_ids_witness :
    (WF (applyAll [Action.createCircle C8nd 0 127, Action.createBgCircle C8nd]
        initialState) ∧
      initialState.objCount ≤
        (applyAll [Action.createCircle C8nd 0 127, Action.createBgCircle C8nd]
          initialState).objCount) ∧
    C8nd.end_ - C8nd.start > Note.DURATION_FOR_TAIL ∧
    ((Action.createCircle C8nd 0 127).apply initialState).objCount =
      initialState.objCount + 1 := by
  have h1 := (C8_monotonic_ids.1
    [Action.createCircle C8nd 0 127, Action.createBgCircle C8nd] initialState
    (by
      intro a ha
      rcases List.mem_cons.mp ha with rfl | ha
      · exact trivial
      · rcases List.mem_cons.mp ha with rfl | ha
        · exact trivial
        · exact absurd ha (List.not_mem_nil a))
    (by
      refine ⟨?_, ?_, ?_, ?_⟩ <;> simp [initialState]))
  have h2 := C8_monotonic_ids.2 initialState C8nd 0 127
    (by norm_num [C8nd, Note.DURATION_FOR_TAIL])
  exact ⟨⟨h1.1, h1.2.1⟩, by norm_num [C8nd, Note.DURATION_FOR_TAIL], h2.2.2⟩

end

end GH
